import Mathlib

/-!
# Projekt-4-animacja: shader loader and timer animation

A shallow embedding of `Przyklad2/shadersLoader.cpp` (the GLSL loading,
compiling and linking sequence) and of the animation variables of `main.cpp`
(`timer` and `klawisz`), followed by the properties established about them.

The `GLfloat` globals of `main.cpp` are IEEE 754 binary32 numbers. They are
held exactly, as integer multiples of `2^-149`, and every `+=` is the exact sum
rounded to the nearest binary32 number, ties to even.

The C library and the OpenGL driver are external to the repository. They
appear here as an environment `Env` of answers (file contents, allocation
outcomes, generated object names, compile and link verdicts) and as a small
object store `GLState` following the OpenGL rules for shader and program
object lifetime.
-/

namespace Animacja

/-! ## Single-precision arithmetic -/

/-- A finite `GLfloat` (IEEE 754 binary32) value: the integer `m` stands for the
number `m * 2^-149`. Every finite binary32 number, subnormals included, is
such a multiple. -/
abbrev GLfloat := Int

/-- The number a `GLfloat` stands for. -/
def toRat (x : GLfloat) : ℚ :=
  (x : ℚ) / 2 ^ 149

/-- The `GLfloat` of a small integer constant such as `1`, `0` or `-1`. -/
def ofInt (i : Int) : GLfloat :=
  i * 2 ^ 149

/-- The number of low bits to drop from `a` to keep 24 significant bits: the
number of halvings that bring `a` below `2^24`. The first argument bounds the
search; 256 halvings cover every sum of two finite binary32 numbers. -/
def excessBits : Nat → Nat → Nat
  | 0, _ => 0
  | fuel + 1, a => if a < 2 ^ 24 then 0 else excessBits fuel (a / 2) + 1

/-- Rounding of an exact value `m * 2^-149` to the nearest binary32 number,
ties to even: values below `2^24` units are representable as they are,
larger ones keep 24 significant bits. Overflow to infinity (magnitudes from
`2^128` on) is not modelled; the animation stays below 2. -/
def roundF32 (m : Int) : GLfloat :=
  let a := m.natAbs
  let e := excessBits 256 a
  let q := a / 2 ^ e
  let r := a % 2 ^ e
  let q1 := if 2 * r > 2 ^ e ∨ (2 * r = 2 ^ e ∧ q % 2 = 1) then q + 1 else q
  if m < 0 then -((q1 * 2 ^ e : Nat) : Int) else ((q1 * 2 ^ e : Nat) : Int)

/-- Single-precision addition: the exact sum, rounded. -/
def fadd (x y : GLfloat) : GLfloat :=
  roundF32 (x + y)

/-- The `double` constant `0.05`, which is `3602879701896397 * 2^-56`. -/
def double_0_05 : Int :=
  3602879701896397 * 2 ^ 93

/-! ## The animation variables -/

/-- The animation variables of `main.cpp`: the flag `s` and the `GLfloat`
globals `ad`, `k`, `ad1`, `k1`. -/
structure Anim where
  s : Bool
  ad : GLfloat
  k : GLfloat
  ad1 : GLfloat
  k1 : GLfloat
  deriving DecidableEq

/-- The initial values of the globals: `s = TRUE`, `ad = ad1 = 0.0`, and
`k = k1 = 0.05`, the `double` constant converted to `GLfloat`. -/
def init : Anim :=
  { s := true, ad := 0, k := roundF32 double_0_05, ad1 := 0, k1 := roundF32 double_0_05 }

/-- One call of `timer`: both coordinates advance, with single-precision
`+=`, only while `s` holds, but the two direction flips are tested on every
call. -/
def timer (a : Anim) : Anim :=
  let ad := if a.s then fadd a.ad a.k else a.ad
  let k := if ad > ofInt 1 ∨ ad < ofInt (-1) then -a.k else a.k
  let ad1 := if a.s then fadd a.ad1 a.k1 else a.ad1
  let k1 := if ad1 > ofInt 1 ∨ ad1 < ofInt 0 then -a.k1 else a.k1
  { s := a.s, ad := ad, k := k, ad1 := ad1, k1 := k1 }

/-- The keyboard callback `klawisz`. `none` is `exit(1)` on Esc (27); the
key `s` (115) toggles the flag; `m` and `n` only change the polygon mode of the
driver and every other key is ignored, so the animation variables are kept. -/
def klawisz (key : Nat) (a : Anim) : Option Anim :=
  if key = 27 then none
  else if key = 115 then some { a with s := if a.s then false else true }
  else some a

/-- The callbacks GLUT delivers to the program. -/
inductive Callback where
  | timer
  | klawisz (key : Nat)
  deriving DecidableEq

/-- Run a sequence of callbacks; the run stops at `exit`. -/
def run : List Callback → Anim → Option Anim
  | [], a => some a
  | Callback.timer :: rest, a => run rest (timer a)
  | Callback.klawisz key :: rest, a =>
    match klawisz key a with
    | none => none
    | some b => run rest b

/-- The state reached after `n` timer calls and no key press. -/
def timerN : Nat → Anim → Anim
  | 0, a => a
  | n + 1, a => timer (timerN n a)

/-- The bounds of the running animation as a test on the integers:
`s` holds, `-1/20 ≤ ad1 ≤ 21/20` and `-21/20 ≤ ad ≤ 21/20`. -/
def boundsHold (a : Anim) : Bool :=
  a.s && decide (-(2 ^ 149) ≤ 20 * a.ad1) && decide (20 * a.ad1 ≤ 21 * 2 ^ 149) &&
    decide (-(21 * 2 ^ 149) ≤ 20 * a.ad) && decide (20 * a.ad ≤ 21 * 2 ^ 149)

/-- The callbacks of the escaping run: 20 timer calls, then `s`, one timer call,
`s` again and one more timer call. -/
def escapeRun : List Callback :=
  List.replicate 20 Callback.timer ++
    [Callback.klawisz 115, Callback.timer, Callback.klawisz 115, Callback.timer]

end Animacja

namespace ShaderLoader

/-! ## Data model -/

/-- A C `char`. -/
abbrev Byte := Fin 256

abbrev GLuint := Nat
abbrev GLenum := Nat
abbrev GLint := Int

/-- Values of the OpenGL header constants the loader uses. -/
def GL_FALSE : GLint := 0
def GL_TRUE : GLint := 1
def GL_FRAGMENT_SHADER : GLenum := 0x8B30
def GL_VERTEX_SHADER : GLenum := 0x8B31
def GL_COMPILE_STATUS : GLenum := 0x8B81
def GL_LINK_STATUS : GLenum := 0x8B82
def GL_INFO_LOG_LENGTH : GLenum := 0x8B84

/-- An open `FILE*`: the blocks that the coming `fread` calls deliver, in
order. An exhausted stream, or an empty block, is an `fread` that returns 0.
The loader asks for 512 bytes at a time, so it sees at most the first 512
bytes of a block. -/
abbrev FILE := List (List Byte)

/-- The calls of the loader that act on the outside world, in program order. -/
inductive Event where
  | fopen (filePath : String) (ok : Bool)
  | fread (count : Nat)
  | malloc (size : Nat) (ok : Bool)
  | free
  | fclose
  | stderr (msg : String)
  | glCreateShader (type : GLenum) (ret : GLuint)
  | glShaderSource (shader : GLuint) (string : List Byte) (length : GLint)
  | glCompileShader (shader : GLuint)
  | glDeleteShader (shader : GLuint)
  | glAttachShader (program shader : GLuint)
  | glCreateProgram (ret : GLuint)
  | glLinkProgram (program : GLuint)
  | glDeleteProgram (program : GLuint)
  deriving DecidableEq

/-- A shader object of the driver. -/
structure ShaderObj where
  name : GLuint
  type : GLenum
  source : List Byte
  compileStatus : Bool
  infoLog : String
  deleteFlag : Bool
  deriving DecidableEq

/-- A program object of the driver, with the names of its attached shaders. -/
structure ProgramObj where
  name : GLuint
  attached : List GLuint
  linkStatus : Bool
  infoLog : String
  deriving DecidableEq

/-- The live shader and program objects of the driver. -/
structure GLState where
  shaders : List ShaderObj
  programs : List ProgramObj
  deriving DecidableEq

/-- What the loader runs against: the driver's objects and the calls so far. -/
structure World where
  gl : GLState
  trace : List Event
  deriving DecidableEq

/-- The answers of the C library and of the driver.
`fopen` gives the stream behind a path (`none`: the open fails); `mallocOk`
decides each checked allocation from the calls so far and the size asked;
`junk` is the content of freshly allocated memory; `genShader` and
`genProgram` are the names `glCreateShader` and `glCreateProgram` return
(0: the creation fails); `compiler` and `linker` give status and info log;
`uninit` is the value of an uninitialised `GLint` local. -/
structure Env where
  fopen : String → Option FILE
  mallocOk : List Event → Nat → Bool
  junk : Nat → Byte
  genShader : GLState → GLuint
  genProgram : GLState → GLuint
  compiler : GLenum → List Byte → Bool × String
  linker : List ShaderObj → Bool × String
  uninit : GLint

/-! ## C library -/

/-- The block `malloc(size)` returns when it succeeds: `size` bytes of
unspecified content. -/
def mallocBlock (env : Env) (size : Nat) : List Byte :=
  (List.range size).map env.junk

/-- The destination block after `memcpy(dst + off, src, n)`. -/
def memcpy (dst : List Byte) (off : Nat) (src : List Byte) (n : Nat) : List Byte :=
  dst.take off ++ src.take n ++ dst.drop (off + n)

/-- The number of bytes before the first 0 byte. -/
def strlen (s : List Byte) : Nat :=
  (s.takeWhile (fun c => c ≠ 0)).length

/-- Conversion of a `size_t` to the 32-bit signed `GLint`. -/
def toGLint (n : Nat) : GLint :=
  if n % 2 ^ 32 < 2 ^ 31 then ((n % 2 ^ 32 : Nat) : Int) else ((n % 2 ^ 32 : Nat) : Int) - 2 ^ 32

/-- The text `fprintf` writes when the open fails. -/
def msgOpen (filePath : String) : String :=
  "shaderLoadSource(): Unable to open " ++ filePath ++ " for reading\n"

/-- The text `fprintf` writes when an allocation fails. -/
def msgMalloc : String :=
  "shaderLoadSource(): malloc failed\n"

/-- The text `fprintf` writes when the compilation fails. -/
def msgCompile (filePath log : String) : String :=
  "shaderCompileFromFile(): Unable to compile " ++ filePath ++ ": " ++ log ++ "\n"

/-- The text `fprintf` writes when the link fails. -/
def msgLink (log : String) : String :=
  "sceneInit(): Program linking failed: " ++ log ++ "\n"

/-! ## shaderLoadSource -/

/-- The end of `shaderLoadSource`, after the loop: `fclose`, the terminating
0 byte when a buffer exists, and the return. -/
def closeAndTerminate (source : Option (List Byte)) (sourceLength : Nat)
    (tr : List Event) : Option (List Byte) × List Event :=
  match source with
  | some buf => (some (buf.set sourceLength 0), tr ++ [Event.fclose])
  | none => (none, tr ++ [Event.fclose])

/-- The `while ((tmp = fread(buf, 1, blockSize, fp)) > 0)` loop of
`shaderLoadSource` together with the code after it. Each round reads one block
of at most 512 bytes into `buf`, allocates `sourceLength + tmp + 1` bytes,
copies the old buffer and the block, and frees the old buffer; a failed
allocation prints a message, frees the old buffer and returns `NULL`. -/
def readLoop (env : Env) : FILE → Option (List Byte) → Nat → List Event →
    Option (List Byte) × List Event
  | [], source, sourceLength, tr =>
    closeAndTerminate source sourceLength (tr ++ [Event.fread 0])
  | block :: fp, source, sourceLength, tr =>
    let buf := block.take 512
    let tmp := buf.length
    let tr1 := tr ++ [Event.fread tmp]
    if tmp > 0 then
      if env.mallocOk tr1 (sourceLength + tmp + 1) then
        let newSource := mallocBlock env (sourceLength + tmp + 1)
        let tr2 := tr1 ++ [Event.malloc (sourceLength + tmp + 1) true]
        match source with
        | some old =>
          readLoop env fp (some (memcpy (memcpy newSource 0 old sourceLength) sourceLength buf tmp))
            (sourceLength + tmp) (tr2 ++ [Event.free])
        | none =>
          readLoop env fp (some (memcpy newSource sourceLength buf tmp)) (sourceLength + tmp) tr2
      else
        let tr2 := tr1 ++ [Event.malloc (sourceLength + tmp + 1) false, Event.stderr msgMalloc]
        match source with
        | some _ => (none, tr2 ++ [Event.free])
        | none => (none, tr2)
    else
      closeAndTerminate source sourceLength tr1

/-- The function `shaderLoadSource`: `none` is `NULL`, `some buf` is the
returned block with all the bytes that were allocated for it. -/
def shaderLoadSource (env : Env) (filePath : String) (tr : List Event) :
    Option (List Byte) × List Event :=
  match env.fopen filePath with
  | none => (none, tr ++ [Event.fopen filePath false, Event.stderr (msgOpen filePath)])
  | some fp => readLoop env fp none 0 (tr ++ [Event.fopen filePath true])

/-- Whether the first `fread` on the stream returns 0. -/
def yieldsNoBytes : FILE → Bool
  | [] => true
  | block :: _ => (block.take 512).isEmpty

/-- Whether a call is a call into the OpenGL driver. -/
def Event.isGL : Event → Bool
  | Event.fopen _ _ => false
  | Event.fread _ => false
  | Event.malloc _ _ => false
  | Event.free => false
  | Event.fclose => false
  | Event.stderr _ => false
  | _ => true

/-- Whether a call allocates or frees memory, or reads or closes a file. -/
def Event.isResourceCall : Event → Bool
  | Event.fread _ => true
  | Event.malloc _ _ => true
  | Event.free => true
  | Event.fclose => true
  | _ => false

/-- The `length` arguments of the `glShaderSource` calls of a trace. -/
def passedLengths (tr : List Event) : List GLint :=
  tr.filterMap (fun e => match e with
    | Event.glShaderSource _ _ length => some length
    | _ => none)

/-- Whether the text of a message contains the path. -/
def mentions (msg filePath : String) : Prop :=
  filePath.data <:+: msg.data

/-! ## OpenGL driver -/

/-- The shader object with the given name, if one is live. -/
def findShader (st : GLState) (shader : GLuint) : Option ShaderObj :=
  st.shaders.find? (fun o => o.name == shader)

/-- The program object with the given name, if one is live. -/
def findProgram (st : GLState) (program : GLuint) : Option ProgramObj :=
  st.programs.find? (fun o => o.name == program)

/-- Whether some live program has the shader attached. -/
def isAttached (programs : List ProgramObj) (shader : GLuint) : Bool :=
  programs.any (fun p => p.attached.contains shader)

/-- Every name in use: live shaders, live programs and attachments. -/
def allNames (st : GLState) : List GLuint :=
  st.shaders.map (fun o => o.name) ++ st.programs.map (fun o => o.name) ++
    (st.programs.map (fun o => o.attached)).flatten

/-- The contract of name generation: a new name is nonzero and not in use. -/
def Fresh (st : GLState) (n : GLuint) : Prop :=
  n ≠ 0 ∧ n ∉ allNames st

instance (st : GLState) (n : GLuint) : Decidable (Fresh st n) := by
  unfold Fresh; infer_instance

/-- Apply `f` to the shader objects named `shader`. -/
def updShader (st : GLState) (shader : GLuint) (f : ShaderObj → ShaderObj) : GLState :=
  { st with shaders := st.shaders.map (fun o => if o.name = shader then f o else o) }

/-- Apply `f` to the program objects named `program`. -/
def updProgram (st : GLState) (program : GLuint) (f : ProgramObj → ProgramObj) : GLState :=
  { st with programs := st.programs.map (fun o => if o.name = program then f o else o) }

/-- The driver side of `glCreateShader`: an empty shader object under the
generated name; nothing is created when the name is 0. -/
def createShaderSt (st : GLState) (type : GLenum) (n : GLuint) : GLState :=
  if n = 0 then st
  else { st with shaders := st.shaders ++
    [{ name := n, type := type, source := [], compileStatus := false, infoLog := "",
       deleteFlag := false }] }

/-- The driver side of `glCreateProgram`. -/
def createProgramSt (st : GLState) (n : GLuint) : GLState :=
  if n = 0 then st
  else { st with programs := st.programs ++
    [{ name := n, attached := [], linkStatus := false, infoLog := "" }] }

/-- The source text the driver takes from `glShaderSource(shader, 1, &string,
&length)`: `length` bytes, or the bytes up to the first 0 when `length` is
negative. -/
def sourceText (string : List Byte) (length : GLint) : List Byte :=
  if length < 0 then string.take (strlen string) else string.take length.toNat

/-- The driver side of `glCompileShader`: status and log come from the
compiler. -/
def compileShaderSt (env : Env) (st : GLState) (shader : GLuint) : GLState :=
  updShader st shader (fun o =>
    { o with compileStatus := (env.compiler o.type o.source).1,
             infoLog := (env.compiler o.type o.source).2 })

/-- The driver side of `glDeleteShader`: 0 and unknown names are ignored, an
attached shader is only flagged, any other shader is destroyed. -/
def deleteShaderSt (st : GLState) (shader : GLuint) : GLState :=
  if shader = 0 then st
  else if isAttached st.programs shader then
    updShader st shader (fun o => { o with deleteFlag := true })
  else { st with shaders := st.shaders.filter (fun o => o.name ≠ shader) }

/-- The driver side of `glAttachShader`: a live shader not yet attached is
appended to the attachments of the live program. -/
def attachShaderSt (st : GLState) (program shader : GLuint) : GLState :=
  if (findShader st shader).isSome then
    updProgram st program (fun o =>
      if o.attached.contains shader then o else { o with attached := o.attached ++ [shader] })
  else st

/-- The driver side of `glLinkProgram`: status and log come from the linker,
applied to the attached shader objects. -/
def linkProgramSt (env : Env) (st : GLState) (program : GLuint) : GLState :=
  updProgram st program (fun o =>
    { o with linkStatus := (env.linker (o.attached.filterMap (findShader st))).1,
             infoLog := (env.linker (o.attached.filterMap (findShader st))).2 })

/-- The driver side of `glDeleteProgram` for a program that is not in use: the
program is destroyed, its shaders are detached, and a detached shader that is
flagged for deletion and attached to no remaining program is destroyed. -/
def deleteProgramSt (st : GLState) (program : GLuint) : GLState :=
  let detached :=
    ((st.programs.filter (fun o => o.name = program)).map (fun o => o.attached)).flatten
  let programs := st.programs.filter (fun o => o.name ≠ program)
  { shaders := st.shaders.filter (fun o =>
      !(detached.contains o.name && o.deleteFlag && !isAttached programs o.name)),
    programs := programs }

/-- The value of `GL_INFO_LOG_LENGTH`: the size of the log with its terminating
0, or 0 when there is no log. -/
def logLength (log : String) : GLint :=
  if log.length = 0 then 0 else ((log.utf8ByteSize + 1 : Nat) : Int)

/-- The value `glGetShaderiv` stores; `none` when the name is no shader and
nothing is stored. -/
def glGetShaderiv (st : GLState) (shader : GLuint) (pname : GLenum) : Option GLint :=
  match findShader st shader with
  | none => none
  | some o =>
    if pname = GL_COMPILE_STATUS then some (if o.compileStatus then GL_TRUE else GL_FALSE)
    else if pname = GL_INFO_LOG_LENGTH then
      some (logLength o.infoLog)
    else none

/-- The value `glGetProgramiv` stores; `none` when the name is no program. -/
def glGetProgramiv (st : GLState) (program : GLuint) (pname : GLenum) : Option GLint :=
  match findProgram st program with
  | none => none
  | some o =>
    if pname = GL_LINK_STATUS then some (if o.linkStatus then GL_TRUE else GL_FALSE)
    else if pname = GL_INFO_LOG_LENGTH then
      some (logLength o.infoLog)
    else none

/-- The text `glGetShaderInfoLog` writes into a buffer of the full log size. -/
def glGetShaderInfoLog (st : GLState) (shader : GLuint) : String :=
  match findShader st shader with
  | none => ""
  | some o => o.infoLog

/-- The text `glGetProgramInfoLog` writes into a buffer of the full log size. -/
def glGetProgramInfoLog (st : GLState) (program : GLuint) : String :=
  match findProgram st program with
  | none => ""
  | some o => o.infoLog

/-- Record a call. -/
def World.emit (w : World) (e : Event) : World :=
  { w with trace := w.trace ++ [e] }

def glCreateShader (env : Env) (type : GLenum) (w : World) : GLuint × World :=
  let n := env.genShader w.gl
  (n, { gl := createShaderSt w.gl type n, trace := w.trace ++ [Event.glCreateShader type n] })

def glShaderSource (shader : GLuint) (string : List Byte) (length : GLint) (w : World) : World :=
  { gl := updShader w.gl shader (fun o => { o with source := sourceText string length }),
    trace := w.trace ++ [Event.glShaderSource shader string length] }

def glCompileShader (env : Env) (shader : GLuint) (w : World) : World :=
  { gl := compileShaderSt env w.gl shader, trace := w.trace ++ [Event.glCompileShader shader] }

def glDeleteShader (shader : GLuint) (w : World) : World :=
  { gl := deleteShaderSt w.gl shader, trace := w.trace ++ [Event.glDeleteShader shader] }

def glAttachShader (program shader : GLuint) (w : World) : World :=
  { gl := attachShaderSt w.gl program shader,
    trace := w.trace ++ [Event.glAttachShader program shader] }

def glCreateProgram (env : Env) (w : World) : GLuint × World :=
  let n := env.genProgram w.gl
  (n, { gl := createProgramSt w.gl n, trace := w.trace ++ [Event.glCreateProgram n] })

def glLinkProgram (env : Env) (program : GLuint) (w : World) : World :=
  { gl := linkProgramSt env w.gl program, trace := w.trace ++ [Event.glLinkProgram program] }

def glDeleteProgram (program : GLuint) (w : World) : World :=
  { gl := deleteProgramSt w.gl program, trace := w.trace ++ [Event.glDeleteProgram program] }

/-! ## shaderCompileFromFile, shaderAttachFromFile, loadShaders -/

/-- The part of `shaderCompileFromFile` after a successful load: create the
shader, pass the source with `length = strlen(source)`, compile, free the
source, and test the compile status. On `GL_FALSE` the log is fetched into an
unchecked `malloc(length)` block (taken to succeed), the message is printed,
the shader is deleted and 0 is returned. -/
def compileSource (env : Env) (type : GLenum) (filePath : String) (source : List Byte)
    (w : World) : GLuint × World :=
  let (shader, w1) := glCreateShader env type w
  let length := toGLint (strlen source)
  let w2 := glShaderSource shader source length w1
  let w3 := glCompileShader env shader w2
  let w4 := w3.emit Event.free
  let result := (glGetShaderiv w4.gl shader GL_COMPILE_STATUS).getD env.uninit
  if result = GL_FALSE then
    let length := (glGetShaderiv w4.gl shader GL_INFO_LOG_LENGTH).getD length
    let log := glGetShaderInfoLog w4.gl shader
    let w5 := ((w4.emit (Event.malloc length.toNat true)).emit
      (Event.stderr (msgCompile filePath log))).emit Event.free
    (0, glDeleteShader shader w5)
  else
    (shader, w4)

/-- The function `shaderCompileFromFile`. -/
def shaderCompileFromFile (env : Env) (type : GLenum) (filePath : String) (w : World) :
    GLuint × World :=
  match shaderLoadSource env filePath w.trace with
  | (none, tr) => (0, { w with trace := tr })
  | (some source, tr) => compileSource env type filePath source { w with trace := tr }

/-- The function `shaderAttachFromFile`. -/
def shaderAttachFromFile (env : Env) (program : GLuint) (type : GLenum) (filePath : String)
    (w : World) : World :=
  let (shader, w1) := shaderCompileFromFile env type filePath w
  if shader ≠ 0 then
    glDeleteShader shader (glAttachShader program shader w1)
  else
    w1

/-- The first half of `loadShaders`, up to and including `glLinkProgram`:
the program name and the world in which the link status is queried. -/
def loadShadersLink (env : Env) (vertexShaderPath fragmentShaderPath : String) (w : World) :
    GLuint × World :=
  let (g_program, w1) := glCreateProgram env w
  let w2 := shaderAttachFromFile env g_program GL_VERTEX_SHADER vertexShaderPath w1
  let w3 := shaderAttachFromFile env g_program GL_FRAGMENT_SHADER fragmentShaderPath w2
  (g_program, glLinkProgram env g_program w3)

/-- The function `loadShaders`. On `GL_FALSE` the log is fetched into an
unchecked `malloc(length)` block (taken to succeed), the message is printed,
the program is deleted and 0 is returned. -/
def loadShaders (env : Env) (vertexShaderPath fragmentShaderPath : String) (w : World) :
    GLuint × World :=
  let (g_program, w4) := loadShadersLink env vertexShaderPath fragmentShaderPath w
  let result := (glGetProgramiv w4.gl g_program GL_LINK_STATUS).getD env.uninit
  if result = GL_FALSE then
    let length := (glGetProgramiv w4.gl g_program GL_INFO_LOG_LENGTH).getD env.uninit
    let log := glGetProgramInfoLog w4.gl g_program
    let w5 := ((w4.emit (Event.malloc length.toNat true)).emit
      (Event.stderr (msgLink log))).emit Event.free
    (0, glDeleteProgram g_program w5)
  else
    (g_program, w4)

/-! ## Auxiliary descriptions of a run -/

/-- The shader object a successful `shaderCompileFromFile` leaves in the
driver. -/
def compiledObj (env : Env) (type : GLenum) (source : List Byte) (n : GLuint) : ShaderObj :=
  { name := n, type := type, source := sourceText source (toGLint (strlen source)),
    compileStatus := (env.compiler type (sourceText source (toGLint (strlen source)))).1,
    infoLog := (env.compiler type (sourceText source (toGLint (strlen source)))).2,
    deleteFlag := false }

/-- The calls of `shaderCompileFromFile` after the load, up to `free(source)`. -/
def compileCalls (type : GLenum) (source : List Byte) (n : GLuint) : List Event :=
  [Event.glCreateShader type n, Event.glShaderSource n source (toGLint (strlen source)),
    Event.glCompileShader n, Event.free]

/-- The further calls of `shaderCompileFromFile` when the compile status is
`GL_FALSE`. -/
def compileFailCalls (filePath log : String) (n : GLuint) : List Event :=
  [Event.malloc (logLength log).toNat true, Event.stderr (msgCompile filePath log),
    Event.free, Event.glDeleteShader n]

/-- A program object after `glAttachShader(program, shader)` of a shader it
did not have. -/
def attachTo (program shader : GLuint) (o : ProgramObj) : ProgramObj :=
  if o.name = program then { o with attached := o.attached ++ [shader] } else o

/-- The driver state while `loadShaders` builds program `p` over the shaders
`S` and programs `P` it found: the new shader objects `N` are all attached to
the new program, which is not linked yet. -/
def building (S : List ShaderObj) (P : List ProgramObj) (p : GLuint) (N : List ShaderObj) :
    GLState :=
  { shaders := S ++ N,
    programs := P ++ [{ name := p, attached := N.map (fun o => o.name), linkStatus := false,
                        infoLog := "" }] }

/-- The driver state of a build after `glLinkProgram`: as `building`, with the
status and log the linker gave. -/
def linked (S : List ShaderObj) (P : List ProgramObj) (p : GLuint) (N : List ShaderObj)
    (status : Bool) (log : String) : GLState :=
  { shaders := S ++ N,
    programs := P ++ [{ name := p, attached := N.map (fun o => o.name), linkStatus := status,
                        infoLog := log }] }

/-- The shaders a build adds are flagged for deletion and carry names unused
by the shaders and attachments found. -/
def NewShaders (S : List ShaderObj) (P : List ProgramObj) (N : List ShaderObj) : Prop :=
  ∀ o ∈ N, o.deleteFlag = true ∧ o.name ∉ S.map (fun x => x.name) ∧
    o.name ∉ (P.map (fun x => x.attached)).flatten

/-- The value `shaderCompileFromFile` returns for the vertex stage inside
`loadShaders`. -/
def vertexResult (env : Env) (vertexShaderPath : String) (w : World) : GLuint :=
  (shaderCompileFromFile env GL_VERTEX_SHADER vertexShaderPath (glCreateProgram env w).2).1

/-- The value `shaderCompileFromFile` returns for the fragment stage inside
`loadShaders`. -/
def fragmentResult (env : Env) (vertexShaderPath fragmentShaderPath : String) (w : World) :
    GLuint :=
  (shaderCompileFromFile env GL_FRAGMENT_SHADER fragmentShaderPath
    (shaderAttachFromFile env (glCreateProgram env w).1 GL_VERTEX_SHADER vertexShaderPath
      (glCreateProgram env w).2)).1

/-! ## Sample environments -/

/-- A name larger than every name in use. -/
def nextName (st : GLState) : GLuint :=
  (allNames st).sum + 1

/-- The empty driver state with no call made. -/
def emptyWorld : World :=
  { gl := { shaders := [], programs := [] }, trace := [] }

/-- A sample environment: every path opens on the stream `fp` (or fails to open
when `fp` is `none`), every checked allocation answers `mallocOk`, names come
from `nextName`, and the compiler and the linker answer `compileOk` and
`linkOk`. -/
def sampleEnv (fp : Option FILE) (mallocOk compileOk linkOk : Bool) : Env :=
  { fopen := fun _ => fp
    mallocOk := fun _ _ => mallocOk
    junk := fun _ => 7
    genShader := nextName
    genProgram := nextName
    compiler := fun _ _ => (compileOk, "error")
    linker := fun _ => (linkOk, "link error")
    uninit := 0 }

end ShaderLoader

namespace Animacja

set_option maxRecDepth 100000 in
/-- Rounding keeps representable numbers, sends a tie to the even neighbour and
any other value to the nearer neighbour. -/
theorem roundF32_samples :
    roundF32 (ofInt 1) = ofInt 1 ∧ roundF32 (2 ^ 24 + 1) = 2 ^ 24 ∧
    roundF32 (2 ^ 24 + 3) = 2 ^ 24 + 4 ∧ roundF32 (2 ^ 25 + 1) = 2 ^ 25 ∧
    roundF32 (-(2 ^ 25 + 3)) = -(2 ^ 25 + 4) ∧ roundF32 5 = 5 := by
  decide

set_option maxRecDepth 100000 in
theorem init_k_units : init.k = 13421773 * 2 ^ 121 := by
  decide

/-- The initial step is the binary32 number nearest to 0.05. -/
theorem init_step : toRat init.k = 13421773 / 268435456 ∧ init.k1 = init.k := by
  refine ⟨?_, rfl⟩
  rw [init_k_units]
  unfold toRat
  norm_num

theorem timerN_add (m n : Nat) (a : Anim) : timerN (m + n) a = timerN m (timerN n a) := by
  induction m with
  | zero => simp [timerN]
  | succ m ih =>
    have h : m + 1 + n = (m + n) + 1 := by omega
    rw [h]
    simp only [timerN, ih]

set_option maxRecDepth 1000000 in
/-- From the 20th timer call on the state repeats every 80 calls. -/
theorem timerN_period : timerN 100 init = timerN 20 init := by
  decide

set_option maxRecDepth 1000000 in
/-- The bounds hold in each of the first hundred states. -/
theorem bounds_first_hundred : ∀ m < 100, boundsHold (timerN m init) = true := by
  decide

/-- Every state of the running animation is one of the first hundred. -/
theorem timerN_reduce (n : Nat) : ∃ m < 100, timerN n init = timerN m init := by
  induction n using Nat.strong_induction_on with
  | _ n ih =>
    by_cases h : n < 100
    · exact ⟨n, h, rfl⟩
    · obtain ⟨m, hm, hmn⟩ := ih (n - 80) (by omega)
      refine ⟨m, hm, ?_⟩
      have h1 : n = (n - 100) + 100 := by omega
      have h2 : n - 80 = (n - 100) + 20 := by omega
      rw [← hmn, h2, timerN_add (n - 100) 20, ← timerN_period, ← timerN_add, ← h1]

/-- The integer test `boundsHold` gives the bounds on the numbers. -/
theorem boundsHold_toRat (a : Anim) (h : boundsHold a = true) :
    a.s = true ∧ (-1/20 ≤ toRat a.ad1 ∧ toRat a.ad1 ≤ 21/20) ∧
      (-21/20 ≤ toRat a.ad ∧ toRat a.ad ≤ 21/20) := by
  unfold boundsHold at h
  simp only [Bool.and_eq_true, decide_eq_true_eq] at h
  obtain ⟨⟨⟨⟨hs, h1⟩, h2⟩, h3⟩, h4⟩ := h
  have q1 : (-(2 ^ 149) : ℚ) ≤ 20 * (a.ad1 : ℚ) := by exact_mod_cast h1
  have q2 : 20 * (a.ad1 : ℚ) ≤ 21 * 2 ^ 149 := by exact_mod_cast h2
  have q3 : (-(21 * 2 ^ 149) : ℚ) ≤ 20 * (a.ad : ℚ) := by exact_mod_cast h3
  have q4 : 20 * (a.ad : ℚ) ≤ 21 * 2 ^ 149 := by exact_mod_cast h4
  have hp : (0 : ℚ) < 2 ^ 149 := by positivity
  unfold toRat
  refine ⟨hs, ⟨?_, ?_⟩, ⟨?_, ?_⟩⟩
  · rw [le_div_iff₀ hp]; linarith
  · rw [div_le_iff₀ hp]; linarith
  · rw [le_div_iff₀ hp]; linarith
  · rw [div_le_iff₀ hp]; linarith

/-- C9: after any number `n` of timer calls from the initial state with no key
press, computed in single precision as the program does, `s` is still true,
`-1/20 ≤ ad1 ≤ 21/20` and `-21/20 ≤ ad ≤ 21/20`. -/
theorem timer_bounds_while_running (n : Nat) :
    (timerN n init).s = true ∧
    (-1/20 ≤ toRat (timerN n init).ad1 ∧ toRat (timerN n init).ad1 ≤ 21/20) ∧
    (-21/20 ≤ toRat (timerN n init).ad ∧ toRat (timerN n init).ad ≤ 21/20) := by
  obtain ⟨m, hm, hmn⟩ := timerN_reduce n
  rw [hmn]
  exact boundsHold_toRat _ (bounds_first_hundred m hm)

set_option maxRecDepth 1000000 in
theorem run_escapeRun :
    run escapeRun init =
      some { s := true, ad := 8808039 * 2 ^ 126, k := -(13421773 * 2 ^ 121),
             ad1 := 8808039 * 2 ^ 126, k1 := -(13421773 * 2 ^ 121) } := by
  decide

/-- C10: pausing breaks the bound on `ad1`. A finite sequence of timer calls and
`s` key presses leads from the initial state to `ad1 > 21/20` (here
`ad1 = 8808039 / 8388608`); and a paused timer call (`s` false) with `ad1`
outside `[0,1]` leaves `ad1` where it is and negates `k1`. -/
theorem pause_breaks_ad1_bound :
    (∃ evs : List Callback,
      (∀ e ∈ evs, e = Callback.timer ∨ e = Callback.klawisz 115) ∧
      ∃ a, run evs init = some a ∧ toRat a.ad1 > 21/20) ∧
    (∀ a : Anim, a.s = false → (a.ad1 > ofInt 1 ∨ a.ad1 < ofInt 0) →
      (timer a).ad1 = a.ad1 ∧ (timer a).k1 = -a.k1) := by
  refine ⟨⟨escapeRun, by decide, _, run_escapeRun, ?_⟩, ?_⟩
  · unfold toRat
    norm_num
  · intro a hs hout
    simp [timer, hs, hout]

end Animacja

namespace ShaderLoader

/-! ## shaderLoadSource -/

theorem mallocBlock_length (env : Env) (n : Nat) : (mallocBlock env n).length = n := by
  simp [mallocBlock]

theorem memcpy_first (J c : List Byte) (h : J.length = c.length + 1) :
    ∃ y, memcpy J 0 c c.length = c ++ [y] := by
  have h1 : (J.drop c.length).length = 1 := by simp [h]
  obtain ⟨y, hy⟩ := List.length_eq_one.mp h1
  exact ⟨y, by simp [memcpy, hy]⟩

theorem memcpy_grow (J data c : List Byte) (x : Byte)
    (h : J.length = data.length + c.length + 1) :
    ∃ y, memcpy (memcpy J 0 (data ++ [x]) data.length) data.length c c.length
      = data ++ c ++ [y] := by
  have h1 : (J.drop (data.length + c.length)).length = 1 := by simp [h]
  obtain ⟨y, hy⟩ := List.length_eq_one.mp h1
  refine ⟨y, ?_⟩
  simp [memcpy, hy, List.take_append_eq_append_take, List.drop_append_eq_append_drop]

/-- With every allocation succeeding and every block nonempty and at most 512
bytes long, the loop started on a buffer holding `data` and one spare byte ends
with `data`, all blocks in order, and a final 0 byte. -/
theorem readLoop_some (env : Env) (hm : ∀ tr n, env.mallocOk tr n = true) :
    ∀ (fp : FILE), (∀ c ∈ fp, c ≠ [] ∧ c.length ≤ 512) →
    ∀ (data : List Byte) (x : Byte) (tr : List Event),
      (readLoop env fp (some (data ++ [x])) data.length tr).1 = some (data ++ fp.flatten ++ [0]) := by
  intro fp
  induction fp with
  | nil =>
    intro _ data x tr
    simp [readLoop, closeAndTerminate]
  | cons c rest ih =>
    intro hb data x tr
    have hc := hb c (List.mem_cons_self _ _)
    have hlen : 0 < c.length := List.length_pos.mpr hc.1
    have htake : c.take 512 = c := List.take_of_length_le hc.2
    obtain ⟨y, hy⟩ := memcpy_grow (mallocBlock env (data.length + c.length + 1)) data c x
      (mallocBlock_length _ _)
    have ih2 := ih (fun d hd => hb d (List.mem_cons_of_mem _ hd)) (data ++ c) y
    simp only [readLoop, htake, hm, hlen, if_true, gt_iff_lt, hy]
    rw [← List.length_append, ih2]
    simp

/-- The same loop started with no buffer. -/
theorem readLoop_none (env : Env) (hm : ∀ tr n, env.mallocOk tr n = true)
    (fp : FILE) (hb : ∀ c ∈ fp, c ≠ [] ∧ c.length ≤ 512) (tr : List Event) :
    (readLoop env fp none 0 tr).1 = if fp.flatten = [] then none else some (fp.flatten ++ [0]) := by
  cases fp with
  | nil => simp [readLoop, closeAndTerminate]
  | cons c rest =>
    have hc := hb c (List.mem_cons_self _ _)
    have hlen : 0 < c.length := List.length_pos.mpr hc.1
    have htake : c.take 512 = c := List.take_of_length_le hc.2
    obtain ⟨y, hy⟩ := memcpy_first (mallocBlock env (0 + c.length + 1)) c
      (by rw [mallocBlock_length]; omega)
    have h2 := readLoop_some env hm rest (fun d hd => hb d (List.mem_cons_of_mem _ hd)) c y
    simp only [readLoop, htake, hm, hlen, if_true, gt_iff_lt, hy]
    rw [Nat.zero_add, h2]
    simp [hc.1]

/-- The loop only adds calls of the C library to the trace, and when it returns
`NULL` either the allocation message was printed or there was no buffer and
the first `fread` returned 0. -/
theorem readLoop_trace (env : Env) :
    ∀ (fp : FILE) (source : Option (List Byte)) (len : Nat) (tr : List Event),
      ∃ new, (readLoop env fp source len tr).2 = tr ++ new ∧
        (∀ e ∈ new, e.isGL = false) ∧
        ((readLoop env fp source len tr).1 = none →
          Event.stderr msgMalloc ∈ new ∨ (source = none ∧ yieldsNoBytes fp = true)) := by
  intro fp
  induction fp with
  | nil =>
    intro source len tr
    cases source with
    | none =>
      exact ⟨[Event.fread 0, Event.fclose], by simp [readLoop, closeAndTerminate],
        by simp [Event.isGL], fun _ => Or.inr ⟨rfl, rfl⟩⟩
    | some b =>
      exact ⟨[Event.fread 0, Event.fclose], by simp [readLoop, closeAndTerminate],
        by simp [Event.isGL], by simp [readLoop, closeAndTerminate]⟩
  | cons c rest ih =>
    intro source len tr
    by_cases hlen : 0 < (c.take 512).length
    · by_cases hm : env.mallocOk (tr ++ [Event.fread (c.take 512).length])
          (len + (c.take 512).length + 1) = true
      · cases source with
        | none =>
          simp only [readLoop, hlen, hm, if_true, gt_iff_lt]
          obtain ⟨new, h1, h2, h3⟩ := ih
            (some (memcpy (mallocBlock env (len + (c.take 512).length + 1)) len (c.take 512)
              (c.take 512).length)) (len + (c.take 512).length)
            (tr ++ [Event.fread (c.take 512).length] ++
              [Event.malloc (len + (c.take 512).length + 1) true])
          refine ⟨[Event.fread (c.take 512).length,
            Event.malloc (len + (c.take 512).length + 1) true] ++ new, ?_, ?_, ?_⟩
          · rw [h1]; simp
          · intro e he
            rcases List.mem_append.mp he with h | h
            · rcases List.mem_pair.mp h with h | h <;> simp [h, Event.isGL]
            · exact h2 e h
          · intro hn
            rcases h3 hn with h | h
            · exact Or.inl (List.mem_append_right _ h)
            · exact absurd h.1 (by simp)
        | some old =>
          simp only [readLoop, hlen, hm, if_true, gt_iff_lt]
          obtain ⟨new, h1, h2, h3⟩ := ih
            (some (memcpy (memcpy (mallocBlock env (len + (c.take 512).length + 1)) 0 old len)
              len (c.take 512) (c.take 512).length)) (len + (c.take 512).length)
            (tr ++ [Event.fread (c.take 512).length] ++
              [Event.malloc (len + (c.take 512).length + 1) true] ++ [Event.free])
          refine ⟨[Event.fread (c.take 512).length,
            Event.malloc (len + (c.take 512).length + 1) true, Event.free] ++ new, ?_, ?_, ?_⟩
          · rw [h1]; simp
          · intro e he
            rcases List.mem_append.mp he with h | h
            · simp only [List.mem_cons, List.mem_singleton, List.not_mem_nil, or_false] at h
              rcases h with h | h | h <;> simp [h, Event.isGL]
            · exact h2 e h
          · intro hn
            rcases h3 hn with h | h
            · exact Or.inl (List.mem_append_right _ h)
            · exact absurd h.1 (by simp)
      · cases source with
        | none =>
          simp only [readLoop, hlen, hm, if_true, gt_iff_lt]
          exact ⟨[Event.fread (c.take 512).length,
            Event.malloc (len + (c.take 512).length + 1) false, Event.stderr msgMalloc],
            by simp, by simp [Event.isGL], fun _ => Or.inl (by simp)⟩
        | some old =>
          simp only [readLoop, hlen, hm, if_true, gt_iff_lt]
          exact ⟨[Event.fread (c.take 512).length,
            Event.malloc (len + (c.take 512).length + 1) false, Event.stderr msgMalloc,
            Event.free], by simp, by simp [Event.isGL], fun _ => Or.inl (by simp)⟩
    · have h0 : (c.take 512).length = 0 := by omega
      cases source with
      | none =>
        simp only [readLoop, hlen, if_false, gt_iff_lt]
        refine ⟨[Event.fread (c.take 512).length, Event.fclose], by simp [closeAndTerminate],
          by simp [Event.isGL], fun _ => Or.inr ?_⟩
        simp only [yieldsNoBytes, List.isEmpty_iff, true_and]
        exact List.length_eq_zero.mp h0
      | some b =>
        simp only [readLoop, hlen, if_false, gt_iff_lt]
        exact ⟨[Event.fread (c.take 512).length, Event.fclose], by simp [closeAndTerminate],
          by simp [Event.isGL], by simp [closeAndTerminate]⟩

/-- What `shaderLoadSource` adds to the trace: calls of the C library only, and
on a `NULL` return one of the two messages unless the opened file gave no
byte. -/
theorem shaderLoadSource_trace (env : Env) (filePath : String) (tr : List Event) :
    ∃ new, (shaderLoadSource env filePath tr).2 = tr ++ new ∧
      (∀ e ∈ new, e.isGL = false) ∧
      ((shaderLoadSource env filePath tr).1 = none →
        Event.stderr (msgOpen filePath) ∈ new ∨ Event.stderr msgMalloc ∈ new ∨
          ∃ fp, env.fopen filePath = some fp ∧ yieldsNoBytes fp = true) := by
  unfold shaderLoadSource
  cases hf : env.fopen filePath with
  | none =>
    refine ⟨[Event.fopen filePath false, Event.stderr (msgOpen filePath)], ?_, ?_, ?_⟩
    · rfl
    · simp [Event.isGL]
    · exact fun _ => Or.inl (by simp)
  | some fp =>
    obtain ⟨new, h1, h2, h3⟩ := readLoop_trace env fp none 0 (tr ++ [Event.fopen filePath true])
    refine ⟨Event.fopen filePath true :: new, ?_, ?_, ?_⟩
    · simp only []
      rw [h1]; simp
    · intro e he
      rcases List.mem_cons.mp he with h | h
      · simp [h, Event.isGL]
      · exact h2 e h
    · intro hn
      rcases h3 hn with h | h
      · exact Or.inr (Or.inl (List.mem_cons_of_mem _ h))
      · exact Or.inr (Or.inr ⟨fp, rfl, h.2⟩)

/-- C1, as stated, fails on the empty file: `shaderLoadSource` returns `NULL`,
not the one-byte buffer holding the terminating 0. -/
theorem shaderLoadSource_empty_file :
    (shaderLoadSource (sampleEnv (some []) true true true) "empty.glsl" []).1 = none ∧
    (shaderLoadSource (sampleEnv (some []) true true true) "empty.glsl" []).1
      ≠ some (([] : List Byte) ++ [0]) := by
  decide

/-- The value `shaderLoadSource` returns for a file that opens, when every
allocation succeeds. -/
theorem shaderLoadSource_value (env : Env) (filePath : String) (fp : FILE)
    (tr : List Event) (hopen : env.fopen filePath = some fp)
    (hblocks : ∀ c ∈ fp, c ≠ [] ∧ c.length ≤ 512)
    (hm : ∀ t n, env.mallocOk t n = true) :
    (shaderLoadSource env filePath tr).1 =
      if fp.flatten = [] then none else some (fp.flatten ++ [0]) := by
  unfold shaderLoadSource
  rw [hopen]
  exact readLoop_none env hm fp hblocks _

/-- C1, amended: for a file that opens and is delivered in nonempty blocks of at
most 512 bytes, with every allocation succeeding, `shaderLoadSource` returns
`NULL` when the file has no byte and otherwise a buffer of `length(b) + 1`
bytes: the bytes `b` of the file followed by one 0 byte. -/
theorem shaderLoadSource_content (env : Env) (filePath : String) (fp : FILE)
    (tr : List Event) (hopen : env.fopen filePath = some fp)
    (hblocks : ∀ c ∈ fp, c ≠ [] ∧ c.length ≤ 512)
    (hm : ∀ t n, env.mallocOk t n = true) :
    (fp.flatten = [] → (shaderLoadSource env filePath tr).1 = none) ∧
    (fp.flatten ≠ [] → ∃ buf, (shaderLoadSource env filePath tr).1 = some buf ∧
      buf.length = fp.flatten.length + 1 ∧ buf.take fp.flatten.length = fp.flatten ∧
      buf.getLast? = some 0 ∧ buf = fp.flatten ++ [0]) := by
  have h := shaderLoadSource_value env filePath fp tr hopen hblocks hm
  refine ⟨fun he => by rw [h, if_pos he], fun hne => ⟨fp.flatten ++ [0], ?_, ?_, ?_, ?_, rfl⟩⟩
  · rw [h, if_neg hne]
  · simp
  · simp
  · simp

theorem shaderLoadSource_content_witness :
    ((sampleEnv (some [[118, 111], [105]]) true true true).fopen "v.glsl"
        = some [[118, 111], [105]] ∧
      (∀ c ∈ ([[118, 111], [105]] : FILE), c ≠ [] ∧ c.length ≤ 512) ∧
      (∀ t n, (sampleEnv (some [[118, 111], [105]]) true true true).mallocOk t n = true) ∧
      ([[118, 111], [105]] : FILE).flatten ≠ []) ∧
    ∃ buf, (shaderLoadSource (sampleEnv (some [[118, 111], [105]]) true true true)
        "v.glsl" []).1 = some buf ∧
      buf.length = ([[118, 111], [105]] : FILE).flatten.length + 1 ∧
      buf.take ([[118, 111], [105]] : FILE).flatten.length = ([[118, 111], [105]] : FILE).flatten ∧
      buf.getLast? = some 0 ∧ buf = ([[118, 111], [105]] : FILE).flatten ++ [0] :=
  ⟨⟨rfl, by decide, fun _ _ => rfl, by decide⟩,
    (shaderLoadSource_content (sampleEnv (some [[118, 111], [105]]) true true true) "v.glsl"
      [[118, 111], [105]] [] rfl (by decide) (fun _ _ => rfl)).2 (by decide)⟩

theorem mentions_msgOpen (filePath : String) : mentions (msgOpen filePath) filePath := by
  unfold mentions msgOpen
  exact ⟨"shaderLoadSource(): Unable to open ".data, " for reading\n".data, by simp⟩

/-- C5: when the open fails, `shaderLoadSource` returns `NULL`; besides the
failed open, the only call it makes is the one that prints the message naming
the path: no allocation, no read and no close. -/
theorem shaderLoadSource_open_failure (env : Env) (filePath : String) (tr : List Event)
    (h : env.fopen filePath = none) :
    ∃ new, shaderLoadSource env filePath tr = (none, tr ++ new) ∧
      new = [Event.fopen filePath false, Event.stderr (msgOpen filePath)] ∧
      (∀ e ∈ new, e.isResourceCall = false) ∧
      mentions (msgOpen filePath) filePath := by
  refine ⟨_, ?_, rfl, ?_, mentions_msgOpen filePath⟩
  · unfold shaderLoadSource
    rw [h]
  · simp [Event.isResourceCall]

theorem shaderLoadSource_open_failure_witness :
    (sampleEnv none true true true).fopen "missing.glsl" = none ∧
    ∃ new, shaderLoadSource (sampleEnv none true true true) "missing.glsl" [] = (none, [] ++ new) ∧
      new = [Event.fopen "missing.glsl" false, Event.stderr (msgOpen "missing.glsl")] ∧
      (∀ e ∈ new, e.isResourceCall = false) ∧
      mentions (msgOpen "missing.glsl") "missing.glsl" :=
  ⟨rfl, shaderLoadSource_open_failure (sampleEnv none true true true) "missing.glsl" [] rfl⟩

/-! ## Driver objects under fresh names -/

theorem map_upd_fresh (S : List ShaderObj) (n : GLuint) (f : ShaderObj → ShaderObj)
    (h : n ∉ S.map (fun o => o.name)) :
    S.map (fun o => if o.name = n then f o else o) = S := by
  induction S with
  | nil => rfl
  | cons a S ih =>
    simp only [List.map_cons, List.mem_cons, not_or] at h
    simp [ih h.2, Ne.symm h.1]

theorem map_updP_fresh (P : List ProgramObj) (n : GLuint) (f : ProgramObj → ProgramObj)
    (h : n ∉ P.map (fun o => o.name)) :
    P.map (fun o => if o.name = n then f o else o) = P := by
  induction P with
  | nil => rfl
  | cons a P ih =>
    simp only [List.map_cons, List.mem_cons, not_or] at h
    simp [ih h.2, Ne.symm h.1]

theorem filter_ne_fresh (S : List ShaderObj) (n : GLuint)
    (h : n ∉ S.map (fun o => o.name)) :
    S.filter (fun o => o.name ≠ n) = S := by
  rw [List.filter_eq_self]
  intro a ha
  simp only [ne_eq, decide_not, Bool.not_eq_true', decide_eq_false_iff_not]
  intro e
  exact h (List.mem_map.mpr ⟨a, ha, e⟩)

theorem filterP_ne_fresh (P : List ProgramObj) (n : GLuint)
    (h : n ∉ P.map (fun o => o.name)) :
    P.filter (fun o => o.name ≠ n) = P := by
  rw [List.filter_eq_self]
  intro a ha
  simp only [ne_eq, decide_not, Bool.not_eq_true', decide_eq_false_iff_not]
  intro e
  exact h (List.mem_map.mpr ⟨a, ha, e⟩)

theorem filterP_eq_fresh (P : List ProgramObj) (n : GLuint)
    (h : n ∉ P.map (fun o => o.name)) :
    P.filter (fun o => o.name = n) = [] := by
  induction P with
  | nil => rfl
  | cons a P ih =>
    simp only [List.map_cons, List.mem_cons, not_or] at h
    simp [ih h.2, Ne.symm h.1]

theorem find_fresh (S : List ShaderObj) (o : ShaderObj)
    (h : o.name ∉ S.map (fun x => x.name)) :
    (S ++ [o]).find? (fun x => x.name == o.name) = some o := by
  induction S with
  | nil => simp
  | cons a S ih =>
    simp only [List.map_cons, List.mem_cons, not_or] at h
    simp [List.find?_cons, ih h.2, Ne.symm h.1]

theorem findP_fresh (P : List ProgramObj) (o : ProgramObj)
    (h : o.name ∉ P.map (fun x => x.name)) :
    (P ++ [o]).find? (fun x => x.name == o.name) = some o := by
  induction P with
  | nil => simp
  | cons a P ih =>
    simp only [List.map_cons, List.mem_cons, not_or] at h
    simp [List.find?_cons, ih h.2, Ne.symm h.1]

theorem isAttached_false (P : List ProgramObj) (n : GLuint)
    (h : n ∉ (P.map (fun o => o.attached)).flatten) : isAttached P n = false := by
  unfold isAttached
  rw [List.any_eq_false]
  intro p hp hc
  apply h
  simp only [List.mem_flatten, List.mem_map]
  exact ⟨p.attached, ⟨p, hp, rfl⟩, by simpa using hc⟩

theorem fresh_parts (st : GLState) (n : GLuint) (h : Fresh st n) :
    n ≠ 0 ∧ n ∉ st.shaders.map (fun o => o.name) ∧ n ∉ st.programs.map (fun o => o.name) ∧
      n ∉ (st.programs.map (fun o => o.attached)).flatten := by
  obtain ⟨h0, h1⟩ := h
  unfold allNames at h1
  simp only [List.mem_append, not_or] at h1
  exact ⟨h0, h1.1.1, h1.1.2, h1.2⟩

/-- The generated name of `nextName` is fresh in every driver state. -/
theorem nextName_fresh (st : GLState) : Fresh st (nextName st) := by
  refine ⟨by simp [nextName], fun h => ?_⟩
  have := List.single_le_sum (fun x _ => Nat.zero_le x) (nextName st) h
  simp [nextName] at this

/-- The state after create, source, compile on a fresh name. -/
theorem compile_state (env : Env) (type : GLenum) (source : List Byte) (st : GLState)
    (n : GLuint) (hf : Fresh st n) :
    compileShaderSt env
      (updShader (createShaderSt st type n) n
        (fun o => { o with source := sourceText source (toGLint (strlen source)) })) n
      = { st with shaders := st.shaders ++ [compiledObj env type source n] } := by
  obtain ⟨h0, hS, _, _⟩ := fresh_parts st n hf
  simp [compileShaderSt, updShader, createShaderSt, h0, map_upd_fresh _ _ _ hS, compiledObj]

theorem compileSource_eq (env : Env) (type : GLenum) (filePath : String) (source : List Byte)
    (w : World) (hf : Fresh w.gl (env.genShader w.gl)) :
    compileSource env type filePath source w =
      if (env.compiler type (sourceText source (toGLint (strlen source)))).1 = true then
        (env.genShader w.gl,
          { gl := { w.gl with shaders := w.gl.shaders ++
              [compiledObj env type source (env.genShader w.gl)] },
            trace := w.trace ++ compileCalls type source (env.genShader w.gl) })
      else
        (0, { gl := w.gl,
              trace := w.trace ++ compileCalls type source (env.genShader w.gl) ++
                compileFailCalls filePath
                  (env.compiler type (sourceText source (toGLint (strlen source)))).2
                  (env.genShader w.gl) }) := by
  obtain ⟨h0, hS, hP, hA⟩ := fresh_parts _ _ hf
  have hst := compile_state env type source w.gl _ hf
  have hfind : findShader { w.gl with shaders := w.gl.shaders ++
      [compiledObj env type source (env.genShader w.gl)] } (env.genShader w.gl)
      = some (compiledObj env type source (env.genShader w.gl)) :=
    find_fresh w.gl.shaders (compiledObj env type source (env.genShader w.gl)) hS
  have hfil : List.filter (fun o => !decide (o.name = env.genShader w.gl)) w.gl.shaders
      = w.gl.shaders := by
    simpa using filter_ne_fresh _ _ hS
  simp only [compileSource, glCreateShader, glShaderSource, glCompileShader, World.emit, hst,
    glGetShaderiv, hfind, glGetShaderInfoLog, glDeleteShader]
  by_cases hc : (env.compiler type (sourceText source (toGLint (strlen source)))).1 = true
  · simp [hc, GL_COMPILE_STATUS, GL_TRUE, GL_FALSE, compileCalls, compiledObj]
  · simp only [Bool.not_eq_true] at hc
    simp [hc, GL_COMPILE_STATUS, GL_INFO_LOG_LENGTH, GL_TRUE, GL_FALSE, compileCalls,
      compileFailCalls, deleteShaderSt, h0, isAttached_false _ _ hA, hfil, compiledObj]

theorem find_none_fresh (S : List ShaderObj) (n : GLuint)
    (h : n ∉ S.map (fun o => o.name)) :
    S.find? (fun x => x.name == n) = none := by
  rw [List.find?_eq_none]
  intro x hx hn
  exact h (List.mem_map.mpr ⟨x, hx, by simpa using hn⟩)

theorem shaderCompileFromFile_null (env : Env) (type : GLenum) (filePath : String) (w : World)
    (h : (shaderLoadSource env filePath w.trace).1 = none) :
    shaderCompileFromFile env type filePath w
      = (0, { w with trace := (shaderLoadSource env filePath w.trace).2 }) := by
  unfold shaderCompileFromFile
  rcases hl : shaderLoadSource env filePath w.trace with ⟨src, tr⟩
  rw [hl] at h
  simp only at h
  subst h
  rfl

theorem shaderCompileFromFile_some (env : Env) (type : GLenum) (filePath : String) (w : World)
    (source : List Byte) (h : (shaderLoadSource env filePath w.trace).1 = some source) :
    shaderCompileFromFile env type filePath w
      = compileSource env type filePath source
          { w with trace := (shaderLoadSource env filePath w.trace).2 } := by
  unfold shaderCompileFromFile
  rcases hl : shaderLoadSource env filePath w.trace with ⟨src, tr⟩
  rw [hl] at h
  simp only at h
  subst h
  rfl

/-- C4: with `glCreateShader` returning a fresh name, a call of
`shaderCompileFromFile` that returns 0 leaves the driver state, and so the set
of live shaders, as it was; when the load returns `NULL` no driver call is made
at all; when the load succeeds and 0 is returned the created shader is deleted
by the last call and is no longer live; and a nonzero result is the name
`glCreateShader` returned, of a shader that is live and not flagged. -/
theorem shaderCompileFromFile_shader_lifetime (env : Env) (type : GLenum)
    (filePath : String) (w : World) (hf : Fresh w.gl (env.genShader w.gl)) :
    ((shaderCompileFromFile env type filePath w).1 = 0 →
      (shaderCompileFromFile env type filePath w).2.gl = w.gl) ∧
    ((shaderLoadSource env filePath w.trace).1 = none →
      (shaderCompileFromFile env type filePath w).1 = 0 ∧
      ∃ new, (shaderCompileFromFile env type filePath w).2.trace = w.trace ++ new ∧
        ∀ e ∈ new, e.isGL = false) ∧
    (∀ source, (shaderLoadSource env filePath w.trace).1 = some source →
      (shaderCompileFromFile env type filePath w).1 = 0 →
      (∃ pre mid, (shaderCompileFromFile env type filePath w).2.trace =
        pre ++ [Event.glCreateShader type (env.genShader w.gl)] ++ mid ++
          [Event.glDeleteShader (env.genShader w.gl)]) ∧
      findShader (shaderCompileFromFile env type filePath w).2.gl (env.genShader w.gl) = none) ∧
    ((shaderCompileFromFile env type filePath w).1 ≠ 0 →
      (shaderCompileFromFile env type filePath w).1 = env.genShader w.gl ∧
      Event.glCreateShader type (env.genShader w.gl) ∈
        (shaderCompileFromFile env type filePath w).2.trace ∧
      ∃ o, findShader (shaderCompileFromFile env type filePath w).2.gl
          (shaderCompileFromFile env type filePath w).1 = some o ∧ o.deleteFlag = false) := by
  obtain ⟨h0, hS, hP, hA⟩ := fresh_parts _ _ hf
  cases hl : (shaderLoadSource env filePath w.trace).1 with
  | none =>
    rw [shaderCompileFromFile_null env type filePath w hl]
    obtain ⟨new, h1, h2, _⟩ := shaderLoadSource_trace env filePath w.trace
    refine ⟨fun _ => rfl, fun _ => ⟨rfl, new, h1, h2⟩, fun source hs => by simp at hs,
      fun h => absurd rfl h⟩
  | some source =>
    rw [shaderCompileFromFile_some env type filePath w source hl,
      compileSource_eq env type filePath source
        ⟨w.gl, (shaderLoadSource env filePath w.trace).2⟩ hf]
    by_cases hc : (env.compiler type (sourceText source (toGLint (strlen source)))).1 = true
    · rw [if_pos hc]
      refine ⟨fun h => absurd h h0, fun h => by simp at h, fun _ _ h => absurd h h0,
        fun _ => ⟨rfl, by simp [compileCalls], compiledObj env type source (env.genShader w.gl),
          find_fresh _ (compiledObj env type source (env.genShader w.gl)) hS, rfl⟩⟩
    · rw [if_neg hc]
      refine ⟨fun _ => rfl, fun h => by simp at h, fun _ _ _ => ⟨?_, find_none_fresh _ _ hS⟩,
        fun h => absurd rfl h⟩
      exact ⟨(shaderLoadSource env filePath w.trace).2,
        [Event.glShaderSource (env.genShader w.gl) source (toGLint (strlen source)),
          Event.glCompileShader (env.genShader w.gl), Event.free,
          Event.malloc (logLength (env.compiler type
            (sourceText source (toGLint (strlen source)))).2).toNat true,
          Event.stderr (msgCompile filePath (env.compiler type
            (sourceText source (toGLint (strlen source)))).2), Event.free],
        by simp [compileCalls, compileFailCalls]⟩

theorem shaderCompileFromFile_shader_lifetime_witness :
    Fresh emptyWorld.gl ((sampleEnv (some [[65]]) true false true).genShader emptyWorld.gl) ∧
    (shaderCompileFromFile (sampleEnv (some [[65]]) true false true) GL_VERTEX_SHADER
      "v.glsl" emptyWorld).1 = 0 ∧
    (shaderCompileFromFile (sampleEnv (some [[65]]) true false true) GL_VERTEX_SHADER
      "v.glsl" emptyWorld).2.gl = emptyWorld.gl :=
  ⟨by decide, by decide,
    (shaderCompileFromFile_shader_lifetime (sampleEnv (some [[65]]) true false true)
      GL_VERTEX_SHADER "v.glsl" emptyWorld (by decide)).1 (by decide)⟩

/-! ## The length passed to glShaderSource -/

theorem strlen_append_zero (b : List Byte) : strlen (b ++ [0]) = strlen b := by
  unfold strlen
  induction b with
  | nil => simp
  | cons a b ih =>
    by_cases h : a = 0
    · simp [h]
    · simpa [List.takeWhile_cons, h] using ih

theorem strlen_eq_length_iff (b : List Byte) : strlen b = b.length ↔ (0 : Byte) ∉ b := by
  unfold strlen
  induction b with
  | nil => simp
  | cons a b ih =>
    by_cases h : a = 0
    · simp [h]
    · simpa [List.takeWhile_cons, h, Ne.symm h] using ih

theorem strlen_le (b : List Byte) : strlen b ≤ b.length := by
  unfold strlen
  exact (List.takeWhile_sublist _).length_le

theorem toGLint_small (n : Nat) (h : n < 2 ^ 31) : toGLint n = (n : Int) := by
  unfold toGLint
  have h1 : n % 2 ^ 32 = n := Nat.mod_eq_of_lt (by omega)
  rw [h1, if_pos h]

theorem passedLengths_libc (new : List Event) (h : ∀ e ∈ new, e.isGL = false) :
    passedLengths new = [] := by
  unfold passedLengths
  rw [List.filterMap_eq_nil_iff]
  intro e he
  have := h e he
  cases e <;> simp_all [Event.isGL]

theorem passedLengths_append (a b : List Event) :
    passedLengths (a ++ b) = passedLengths a ++ passedLengths b := by
  simp [passedLengths]

theorem compileSource_passedLengths (env : Env) (type : GLenum) (filePath : String)
    (source : List Byte) (w : World) :
    passedLengths (compileSource env type filePath source w).2.trace
      = passedLengths w.trace ++ [toGLint (strlen source)] := by
  simp only [compileSource, glCreateShader, glShaderSource, glCompileShader, World.emit,
    glDeleteShader]
  split <;> simp [passedLengths]

/-- C8, as stated, fails on a file that holds a 0 byte: for the three bytes
`65 0 66` the loader reads three bytes and `glShaderSource` is passed length 1. -/
theorem nul_byte_shortens_length :
    (shaderLoadSource (sampleEnv (some [[65, 0, 66]]) true true true) "v.glsl" []).1
      = some [65, 0, 66, 0] ∧
    passedLengths (shaderCompileFromFile (sampleEnv (some [[65, 0, 66]]) true true true)
      GL_VERTEX_SHADER "v.glsl" emptyWorld).2.trace = [1] ∧
    ([[65, 0, 66]] : FILE).flatten.length = 3 := by
  decide

/-- C8, amended: for a nonempty file of fewer than `2^31` bytes that is loaded,
the one `glShaderSource` call of `shaderCompileFromFile` is passed
`strlen(source)`, the number of bytes before the first 0 byte of the file; this
is the number of bytes read exactly when the file holds no 0 byte. -/
theorem glShaderSource_length (env : Env) (type : GLenum) (filePath : String) (fp : FILE)
    (w : World) (hopen : env.fopen filePath = some fp)
    (hblocks : ∀ c ∈ fp, c ≠ [] ∧ c.length ≤ 512)
    (hm : ∀ t n, env.mallocOk t n = true)
    (hne : fp.flatten ≠ []) (hsz : fp.flatten.length < 2 ^ 31) :
    passedLengths (shaderCompileFromFile env type filePath w).2.trace
      = passedLengths w.trace ++ [(strlen fp.flatten : Int)] ∧
    (strlen fp.flatten = fp.flatten.length ↔ (0 : Byte) ∉ fp.flatten) := by
  refine ⟨?_, strlen_eq_length_iff _⟩
  have hl : (shaderLoadSource env filePath w.trace).1 = some (fp.flatten ++ [0]) := by
    rw [shaderLoadSource_value env filePath fp w.trace hopen hblocks hm, if_neg hne]
  obtain ⟨new, h1, h2, _⟩ := shaderLoadSource_trace env filePath w.trace
  rw [shaderCompileFromFile_some env type filePath w _ hl, compileSource_passedLengths,
    strlen_append_zero, toGLint_small _ (lt_of_le_of_lt (strlen_le _) hsz)]
  simp only [h1, passedLengths_append, passedLengths_libc new h2, List.append_nil]

theorem glShaderSource_length_witness :
    ((sampleEnv (some [[65, 66], [67]]) true true true).fopen "v.glsl" = some [[65, 66], [67]] ∧
      (∀ c ∈ ([[65, 66], [67]] : FILE), c ≠ [] ∧ c.length ≤ 512) ∧
      (∀ t n, (sampleEnv (some [[65, 66], [67]]) true true true).mallocOk t n = true) ∧
      ([[65, 66], [67]] : FILE).flatten ≠ [] ∧
      ([[65, 66], [67]] : FILE).flatten.length < 2 ^ 31) ∧
    passedLengths (shaderCompileFromFile (sampleEnv (some [[65, 66], [67]]) true true true)
        GL_VERTEX_SHADER "v.glsl" emptyWorld).2.trace
      = passedLengths emptyWorld.trace ++ [(strlen ([[65, 66], [67]] : FILE).flatten : Int)] :=
  ⟨⟨rfl, by decide, fun _ _ => rfl, by decide, by decide⟩,
    (glShaderSource_length (sampleEnv (some [[65, 66], [67]]) true true true) GL_VERTEX_SHADER
      "v.glsl" [[65, 66], [67]] emptyWorld rfl (by decide) (fun _ _ => rfl) (by decide)
      (by decide)).1⟩

/-! ## Messages on failure -/

theorem findP_isSome_iff (P : List ProgramObj) (program : GLuint) :
    (P.find? (fun o => o.name == program)).isSome = true ↔ ∃ o ∈ P, o.name = program := by
  simp [List.find?_isSome]

/-- Attaching and then deleting a new shader: with a live program the shader
stays, flagged, and is appended to the attachments; with no such program the
shader is destroyed. -/
theorem attach_delete_state (st : GLState) (program n : GLuint) (obj : ShaderObj)
    (hobj : obj.name = n) (hf : Fresh st n) :
    deleteShaderSt (attachShaderSt { st with shaders := st.shaders ++ [obj] } program n) n =
      if (findProgram st program).isSome then
        { shaders := st.shaders ++ [{ obj with deleteFlag := true }],
          programs := st.programs.map (attachTo program n) }
      else st := by
  obtain ⟨h0, hS, hP, hA⟩ := fresh_parts _ _ hf
  subst hobj
  have hfind : findShader { st with shaders := st.shaders ++ [obj] } obj.name = some obj :=
    find_fresh st.shaders obj hS
  have hmap : st.programs.map (fun o => if o.name = program then
      (if o.attached.contains obj.name then o else { o with attached := o.attached ++ [obj.name] })
      else o) = st.programs.map (attachTo program obj.name) := by
    apply List.map_congr_left
    intro o ho
    have hno : obj.name ∉ o.attached := by
      intro hc
      apply hA
      simp only [List.mem_flatten, List.mem_map]
      exact ⟨o.attached, ⟨o, ho, rfl⟩, hc⟩
    simp [attachTo, hno]
  unfold attachShaderSt
  rw [hfind]
  simp only [Option.isSome_some, if_true, updProgram, hmap]
  unfold deleteShaderSt
  rw [if_neg h0]
  by_cases hp : (findProgram st program).isSome = true
  · have hatt : isAttached (st.programs.map (attachTo program obj.name)) obj.name = true := by
      obtain ⟨o, ho, hn⟩ := (findP_isSome_iff _ _).mp hp
      unfold isAttached
      rw [List.any_eq_true]
      exact ⟨attachTo program obj.name o, List.mem_map.mpr ⟨o, ho, rfl⟩,
        by simp [attachTo, hn]⟩
    simp only [hatt, if_true, hp, updShader, List.map_append, map_upd_fresh _ _ _ hS,
      List.map_cons, List.map_nil]
  · have hnone : ∀ o ∈ st.programs, o.name ≠ program := by
      intro o ho hn
      exact hp ((findP_isSome_iff _ _).mpr ⟨o, ho, hn⟩)
    have hid : st.programs.map (attachTo program obj.name) = st.programs := by
      have : st.programs.map (attachTo program obj.name) = st.programs.map id :=
        List.map_congr_left (fun o ho => by simp [attachTo, hnone o ho])
      rw [this, List.map_id]
    have hfil : List.filter (fun o => decide (o.name ≠ obj.name)) (st.shaders ++ [obj])
        = st.shaders := by
      rw [List.filter_append, filter_ne_fresh _ _ hS]
      simp
    simp only [hid, isAttached_false _ _ hA, hp, hfil]
    simp

theorem shaderAttachFromFile_eq (env : Env) (program : GLuint) (type : GLenum)
    (filePath : String) (w : World) :
    shaderAttachFromFile env program type filePath w =
      if (shaderCompileFromFile env type filePath w).1 ≠ 0 then
        glDeleteShader (shaderCompileFromFile env type filePath w).1
          (glAttachShader program (shaderCompileFromFile env type filePath w).1
            (shaderCompileFromFile env type filePath w).2)
      else (shaderCompileFromFile env type filePath w).2 := rfl

/-- The two outcomes of `shaderCompileFromFile` on the driver state when the
generated name is fresh. -/
theorem shaderCompileFromFile_cases (env : Env) (type : GLenum) (filePath : String)
    (w : World) (hf : Fresh w.gl (env.genShader w.gl)) :
    ((shaderCompileFromFile env type filePath w).1 = 0 ∧
      (shaderCompileFromFile env type filePath w).2.gl = w.gl) ∨
    ((shaderCompileFromFile env type filePath w).1 = env.genShader w.gl ∧
      ∃ o : ShaderObj, o.name = env.genShader w.gl ∧ o.type = type ∧ o.deleteFlag = false ∧
        (shaderCompileFromFile env type filePath w).2.gl =
          { w.gl with shaders := w.gl.shaders ++ [o] }) := by
  cases hl : (shaderLoadSource env filePath w.trace).1 with
  | none =>
    rw [shaderCompileFromFile_null env type filePath w hl]
    exact Or.inl ⟨rfl, rfl⟩
  | some source =>
    rw [shaderCompileFromFile_some env type filePath w source hl,
      compileSource_eq env type filePath source
        ⟨w.gl, (shaderLoadSource env filePath w.trace).2⟩ hf]
    by_cases hc : (env.compiler type (sourceText source (toGLint (strlen source)))).1 = true
    · rw [if_pos hc]
      exact Or.inr ⟨rfl, compiledObj env type source (env.genShader w.gl), rfl, rfl, rfl, rfl⟩
    · rw [if_neg hc]
      exact Or.inl ⟨rfl, rfl⟩

/-- The driver state after `shaderAttachFromFile`: unchanged when the
compilation returns 0; otherwise, for a live program, the new shader is
appended to the attachments and kept with its delete flag set. -/
theorem shaderAttachFromFile_gl (env : Env) (program : GLuint) (type : GLenum)
    (filePath : String) (w : World) (hf : Fresh w.gl (env.genShader w.gl)) :
    ((shaderCompileFromFile env type filePath w).1 = 0 →
      (shaderAttachFromFile env program type filePath w).gl = w.gl) ∧
    ((shaderCompileFromFile env type filePath w).1 ≠ 0 →
      (findProgram w.gl program).isSome = true →
        (shaderAttachFromFile env program type filePath w).gl.programs =
          w.gl.programs.map (attachTo program (shaderCompileFromFile env type filePath w).1) ∧
        ∃ o : ShaderObj, o.name = (shaderCompileFromFile env type filePath w).1 ∧
          o.type = type ∧ o.deleteFlag = true ∧
          (shaderAttachFromFile env program type filePath w).gl.shaders
            = w.gl.shaders ++ [o]) := by
  rw [shaderAttachFromFile_eq]
  rcases shaderCompileFromFile_cases env type filePath w hf with ⟨h0, hgl⟩ | ⟨hn, o, ho, ht, hd, hgl⟩
  · refine ⟨fun _ => ?_, fun h => absurd h0 h⟩
    simp [h0, hgl]
  · have hne : (shaderCompileFromFile env type filePath w).1 ≠ 0 := by
      rw [hn]; exact hf.1
    refine ⟨fun h => absurd h hne, fun _ hp => ?_⟩
    rw [if_pos hne]
    simp only [glDeleteShader, glAttachShader, hgl, hn]
    rw [attach_delete_state w.gl program _ o ho hf, if_pos hp]
    exact ⟨rfl, { o with deleteFlag := true }, ho, ht, rfl, rfl⟩

/-- C7: with `glCreateShader` returning a fresh name, when the compilation
inside `shaderAttachFromFile` returns 0 the function makes no call of its own
and the driver state (live shaders, live programs, attachments) is the one
before the call; when it returns a nonzero shader the function calls
`glAttachShader(program, shader)` and then `glDeleteShader(shader)` and nothing
else, and for a live program that shader is appended to the attachments of the
program and stays live, flagged for deletion. -/
theorem shaderAttachFromFile_effect (env : Env) (program : GLuint) (type : GLenum)
    (filePath : String) (w : World) (hf : Fresh w.gl (env.genShader w.gl)) :
    ((shaderCompileFromFile env type filePath w).1 = 0 →
      shaderAttachFromFile env program type filePath w
        = (shaderCompileFromFile env type filePath w).2 ∧
      (shaderAttachFromFile env program type filePath w).gl = w.gl) ∧
    ((shaderCompileFromFile env type filePath w).1 ≠ 0 →
      shaderAttachFromFile env program type filePath w =
        glDeleteShader (shaderCompileFromFile env type filePath w).1
          (glAttachShader program (shaderCompileFromFile env type filePath w).1
            (shaderCompileFromFile env type filePath w).2) ∧
      (shaderAttachFromFile env program type filePath w).trace =
        (shaderCompileFromFile env type filePath w).2.trace ++
          [Event.glAttachShader program (shaderCompileFromFile env type filePath w).1,
           Event.glDeleteShader (shaderCompileFromFile env type filePath w).1] ∧
      ((findProgram w.gl program).isSome = true →
        (shaderAttachFromFile env program type filePath w).gl.programs =
          w.gl.programs.map (attachTo program (shaderCompileFromFile env type filePath w).1) ∧
        ∃ o : ShaderObj, o.name = (shaderCompileFromFile env type filePath w).1 ∧
          o.type = type ∧ o.deleteFlag = true ∧
          (shaderAttachFromFile env program type filePath w).gl.shaders
            = w.gl.shaders ++ [o])) := by
  obtain ⟨hz, hnz⟩ := shaderAttachFromFile_gl env program type filePath w hf
  constructor
  · intro h0
    refine ⟨?_, hz h0⟩
    rw [shaderAttachFromFile_eq, if_neg (not_not.mpr h0)]
  · intro hne
    refine ⟨?_, ?_, hnz hne⟩
    · rw [shaderAttachFromFile_eq, if_pos hne]
    · rw [shaderAttachFromFile_eq, if_pos hne]
      simp [glDeleteShader, glAttachShader]

theorem shaderAttachFromFile_effect_witness :
    Fresh (createProgramSt emptyWorld.gl 1)
      ((sampleEnv (some [[65]]) true true true).genShader (createProgramSt emptyWorld.gl 1)) ∧
    (shaderCompileFromFile (sampleEnv (some [[65]]) true true true) GL_VERTEX_SHADER "v.glsl"
      ⟨createProgramSt emptyWorld.gl 1, []⟩).1 ≠ 0 ∧
    (shaderAttachFromFile (sampleEnv (some [[65]]) true true true) 1 GL_VERTEX_SHADER "v.glsl"
      ⟨createProgramSt emptyWorld.gl 1, []⟩).trace =
        (shaderCompileFromFile (sampleEnv (some [[65]]) true true true) GL_VERTEX_SHADER
          "v.glsl" ⟨createProgramSt emptyWorld.gl 1, []⟩).2.trace ++
          [Event.glAttachShader 1 (shaderCompileFromFile (sampleEnv (some [[65]]) true true true)
            GL_VERTEX_SHADER "v.glsl" ⟨createProgramSt emptyWorld.gl 1, []⟩).1,
           Event.glDeleteShader (shaderCompileFromFile (sampleEnv (some [[65]]) true true true)
            GL_VERTEX_SHADER "v.glsl" ⟨createProgramSt emptyWorld.gl 1, []⟩).1] :=
  ⟨by decide, by decide,
    ((shaderAttachFromFile_effect (sampleEnv (some [[65]]) true true true) 1 GL_VERTEX_SHADER
      "v.glsl" ⟨createProgramSt emptyWorld.gl 1, []⟩ (by decide)).2 (by decide)).2.1⟩

/-! ## loadShaders -/

theorem building_findProgram (S : List ShaderObj) (P : List ProgramObj) (p : GLuint)
    (N : List ShaderObj) (hp : p ∉ P.map (fun o => o.name)) :
    findProgram (building S P p N) p
      = some { name := p, attached := N.map (fun o => o.name), linkStatus := false,
               infoLog := "" } :=
  findP_fresh P { name := p, attached := N.map (fun o => o.name), linkStatus := false,
                  infoLog := "" } hp

/-- One `shaderAttachFromFile` call during a build keeps the shape of the
driver state: the new shader, if any, joins the new shaders of the build. -/
theorem attach_step (env : Env) (S : List ShaderObj) (P : List ProgramObj) (p : GLuint)
    (N : List ShaderObj) (w : World) (type : GLenum) (filePath : String)
    (hw : w.gl = building S P p N) (hp : p ∉ P.map (fun o => o.name))
    (hN : NewShaders S P N) (hf : Fresh w.gl (env.genShader w.gl)) :
    ∃ N2, (shaderAttachFromFile env p type filePath w).gl = building S P p N2 ∧
      NewShaders S P N2 ∧
      N2.map (fun o => o.name) = N.map (fun o => o.name) ++
        [(shaderCompileFromFile env type filePath w).1].filter (fun n => n ≠ 0) := by
  obtain ⟨h0, hS, hP, hA⟩ := fresh_parts _ _ hf
  obtain ⟨hz, hnz⟩ := shaderAttachFromFile_gl env p type filePath w hf
  by_cases hc : (shaderCompileFromFile env type filePath w).1 = 0
  · exact ⟨N, by rw [hz hc, hw], hN, by simp [hc]⟩
  · have hlive : (findProgram w.gl p).isSome = true := by
      rw [hw, building_findProgram S P p N hp]; rfl
    obtain ⟨hprog, o, hname, _, hflag, hsh⟩ := hnz hc hlive
    have hn : (shaderCompileFromFile env type filePath w).1 = env.genShader w.gl := by
      rcases shaderCompileFromFile_cases env type filePath w hf with ⟨h, _⟩ | ⟨h, _⟩
      · exact absurd h hc
      · exact h
    refine ⟨N ++ [o], ?_, ?_, by simp [hc, hname]⟩
    · have heta : (shaderAttachFromFile env p type filePath w).gl
          = ⟨(shaderAttachFromFile env p type filePath w).gl.shaders,
             (shaderAttachFromFile env p type filePath w).gl.programs⟩ := rfl
      rw [heta, hprog, hsh, hw]
      simp only [building, List.map_append, List.map_cons, List.map_nil, List.append_assoc,
        GLState.mk.injEq, true_and]
      have hPid : P.map (attachTo p (shaderCompileFromFile env type filePath w).1) = P := by
        unfold attachTo
        exact map_updP_fresh P p _ hp
      rw [hPid]
      simp [attachTo, hname]
    · intro x hx
      rcases List.mem_append.mp hx with h | h
      · exact hN x h
      · rw [List.mem_singleton] at h
        subst h
        rw [hname, hn, hw]
        rw [hw] at hS hA
        simp only [building, List.map_append, List.mem_append, not_or, List.flatten_append]
          at hS hA
        exact ⟨hflag, hS.1, hA.1⟩

theorem linkProgramSt_building (env : Env) (S : List ShaderObj) (P : List ProgramObj)
    (p : GLuint) (N : List ShaderObj) (hp : p ∉ P.map (fun o => o.name)) :
    ∃ status log, linkProgramSt env (building S P p N) p = linked S P p N status log := by
  refine ⟨(env.linker ((N.map (fun o => o.name)).filterMap
      (findShader (building S P p N)))).1,
    (env.linker ((N.map (fun o => o.name)).filterMap (findShader (building S P p N)))).2, ?_⟩
  simp only [linkProgramSt, updProgram, building, List.map_append, map_updP_fresh P p _ hp,
    List.map_cons, List.map_nil, if_true, linked]

theorem linked_status (S : List ShaderObj) (P : List ProgramObj) (p : GLuint)
    (N : List ShaderObj) (status : Bool) (log : String) (hp : p ∉ P.map (fun o => o.name)) :
    glGetProgramiv (linked S P p N status log) p GL_LINK_STATUS
      = some (if status then GL_TRUE else GL_FALSE) ∧
    findProgram (linked S P p N status log) p
      = some { name := p, attached := N.map (fun o => o.name), linkStatus := status,
               infoLog := log } := by
  have hfind : findProgram (linked S P p N status log) p
      = some { name := p, attached := N.map (fun o => o.name), linkStatus := status,
               infoLog := log } :=
    findP_fresh P { name := p, attached := N.map (fun o => o.name), linkStatus := status,
                    infoLog := log } hp
  refine ⟨?_, hfind⟩
  unfold glGetProgramiv
  rw [hfind]
  simp

/-- Deleting the program of a build destroys it together with the shaders the
build added, and nothing else. -/
theorem deleteProgramSt_linked (S : List ShaderObj) (P : List ProgramObj) (p : GLuint)
    (N : List ShaderObj) (status : Bool) (log : String) (hp : p ∉ P.map (fun o => o.name))
    (hN : NewShaders S P N) :
    deleteProgramSt (linked S P p N status log) p = { shaders := S, programs := P } := by
  have hdet : (((P ++ [(⟨p, N.map (fun o => o.name), status, log⟩ : ProgramObj)]).filter
      (fun o => o.name = p)).map (fun o => o.attached)).flatten = N.map (fun o => o.name) := by
    rw [List.filter_append, filterP_eq_fresh P p hp]
    simp
  have hrest : (P ++ [(⟨p, N.map (fun o => o.name), status, log⟩ : ProgramObj)]).filter
      (fun o => o.name ≠ p) = P := by
    rw [List.filter_append, filterP_ne_fresh P p hp]
    simp
  unfold deleteProgramSt linked
  simp only [hdet, hrest, GLState.mk.injEq, and_true]
  rw [List.filter_append]
  have hkeep : S.filter (fun o => !((N.map (fun o => o.name)).contains o.name && o.deleteFlag &&
      !isAttached P o.name)) = S := by
    rw [List.filter_eq_self]
    intro a ha
    have hnot : a.name ∉ N.map (fun o => o.name) := by
      intro hmem
      obtain ⟨o, ho, hname⟩ := List.mem_map.mp hmem
      exact (hN o ho).2.1 (hname ▸ List.mem_map.mpr ⟨a, ha, rfl⟩)
    simp [hnot]
  have hdrop : N.filter (fun o => !((N.map (fun o => o.name)).contains o.name && o.deleteFlag &&
      !isAttached P o.name)) = [] := by
    rw [List.filter_eq_nil_iff]
    intro a ha
    have hin : a.name ∈ N.map (fun o => o.name) := List.mem_map.mpr ⟨a, ha, rfl⟩
    simp [hin, (hN a ha).1, isAttached_false P a.name (hN a ha).2.2]
  rw [hkeep, hdrop, List.append_nil]

theorem loadShadersLink_eq (env : Env) (vertexShaderPath fragmentShaderPath : String)
    (w : World) :
    loadShadersLink env vertexShaderPath fragmentShaderPath w =
      (env.genProgram w.gl, glLinkProgram env (env.genProgram w.gl)
        (shaderAttachFromFile env (env.genProgram w.gl) GL_FRAGMENT_SHADER fragmentShaderPath
          (shaderAttachFromFile env (env.genProgram w.gl) GL_VERTEX_SHADER vertexShaderPath
            (glCreateProgram env w).2))) := rfl

/-- The driver state in which `loadShaders` queries the link status. -/
theorem loadShadersLink_shape (env : Env) (vertexShaderPath fragmentShaderPath : String)
    (w : World) (hfs : ∀ st, Fresh st (env.genShader st))
    (hfp : Fresh w.gl (env.genProgram w.gl)) :
    ∃ N status log,
      (loadShadersLink env vertexShaderPath fragmentShaderPath w).2.gl =
        linked w.gl.shaders w.gl.programs (env.genProgram w.gl) N status log ∧
      NewShaders w.gl.shaders w.gl.programs N ∧
      N.map (fun o => o.name) =
        [vertexResult env vertexShaderPath w,
         fragmentResult env vertexShaderPath fragmentShaderPath w].filter (fun n => n ≠ 0) := by
  obtain ⟨h0, _, hP, _⟩ := fresh_parts _ _ hfp
  have hstart : (glCreateProgram env w).2.gl
      = building w.gl.shaders w.gl.programs (env.genProgram w.gl) [] := by
    simp [glCreateProgram, createProgramSt, h0, building]
  obtain ⟨N1, hgl1, hN1, hnames1⟩ := attach_step env w.gl.shaders w.gl.programs
    (env.genProgram w.gl) [] (glCreateProgram env w).2 GL_VERTEX_SHADER vertexShaderPath
    hstart hP (fun o ho => by simp at ho) (hfs _)
  obtain ⟨N2, hgl2, hN2, hnames2⟩ := attach_step env w.gl.shaders w.gl.programs
    (env.genProgram w.gl) N1 _ GL_FRAGMENT_SHADER fragmentShaderPath hgl1 hP hN1 (hfs _)
  obtain ⟨status, log, hlink⟩ := linkProgramSt_building env w.gl.shaders w.gl.programs
    (env.genProgram w.gl) N2 hP
  refine ⟨N2, status, log, ?_, hN2, ?_⟩
  · rw [loadShadersLink_eq]
    simp only [glLinkProgram, hgl2, hlink]
  · rw [hnames2, hnames1]
    have key : ∀ a b : GLuint, [a].filter (fun n => n ≠ 0) ++ [b].filter (fun n => n ≠ 0)
        = [a, b].filter (fun n => n ≠ 0) := by
      intro a b
      rw [← List.filter_append]
      rfl
    simp only [List.map_nil, List.nil_append]
    exact key _ _

theorem loadShaders_eq (env : Env) (vertexShaderPath fragmentShaderPath : String) (w : World) :
    loadShaders env vertexShaderPath fragmentShaderPath w =
      if (glGetProgramiv (loadShadersLink env vertexShaderPath fragmentShaderPath w).2.gl
          (loadShadersLink env vertexShaderPath fragmentShaderPath w).1 GL_LINK_STATUS).getD
            env.uninit = GL_FALSE then
        (0, glDeleteProgram (loadShadersLink env vertexShaderPath fragmentShaderPath w).1
          ((((loadShadersLink env vertexShaderPath fragmentShaderPath w).2.emit
            (Event.malloc ((glGetProgramiv
              (loadShadersLink env vertexShaderPath fragmentShaderPath w).2.gl
              (loadShadersLink env vertexShaderPath fragmentShaderPath w).1
              GL_INFO_LOG_LENGTH).getD env.uninit).toNat true)).emit
            (Event.stderr (msgLink (glGetProgramInfoLog
              (loadShadersLink env vertexShaderPath fragmentShaderPath w).2.gl
              (loadShadersLink env vertexShaderPath fragmentShaderPath w).1)))).emit Event.free))
      else loadShadersLink env vertexShaderPath fragmentShaderPath w := rfl

/-- C3: with fresh names from `glCreateShader` and `glCreateProgram`, a run of
`loadShaders` in which the link status query answers `GL_FALSE` returns 0 and
leaves the driver state as it was before the call: the same live shader
objects and the same live program objects. -/
theorem loadShaders_link_failure_cleanup (env : Env)
    (vertexShaderPath fragmentShaderPath : String) (w : World)
    (hfs : ∀ st, Fresh st (env.genShader st)) (hfp : Fresh w.gl (env.genProgram w.gl))
    (hlink : glGetProgramiv (loadShadersLink env vertexShaderPath fragmentShaderPath w).2.gl
      (loadShadersLink env vertexShaderPath fragmentShaderPath w).1 GL_LINK_STATUS
        = some GL_FALSE) :
    (loadShaders env vertexShaderPath fragmentShaderPath w).1 = 0 ∧
    (loadShaders env vertexShaderPath fragmentShaderPath w).2.gl = w.gl ∧
    (loadShaders env vertexShaderPath fragmentShaderPath w).2.gl.shaders = w.gl.shaders ∧
    (loadShaders env vertexShaderPath fragmentShaderPath w).2.gl.programs = w.gl.programs := by
  obtain ⟨_, _, hP, _⟩ := fresh_parts _ _ hfp
  obtain ⟨N, status, log, hgl, hN, _⟩ :=
    loadShadersLink_shape env vertexShaderPath fragmentShaderPath w hfs hfp
  have hgl2 : (loadShaders env vertexShaderPath fragmentShaderPath w).2.gl = w.gl := by
    rw [loadShaders_eq, hlink]
    simp only [Option.getD_some, if_true, glDeleteProgram, World.emit, hgl]
    rw [show (loadShadersLink env vertexShaderPath fragmentShaderPath w).1
      = env.genProgram w.gl from rfl]
    exact deleteProgramSt_linked _ _ _ N status log hP hN
  refine ⟨?_, hgl2, by rw [hgl2], by rw [hgl2]⟩
  rw [loadShaders_eq, hlink]
  rfl

theorem loadShaders_link_failure_cleanup_witness :
    ((∀ st, Fresh st ((sampleEnv (some [[65]]) true true false).genShader st)) ∧
      Fresh emptyWorld.gl ((sampleEnv (some [[65]]) true true false).genProgram emptyWorld.gl) ∧
      glGetProgramiv (loadShadersLink (sampleEnv (some [[65]]) true true false) "v.glsl"
          "f.glsl" emptyWorld).2.gl
        (loadShadersLink (sampleEnv (some [[65]]) true true false) "v.glsl" "f.glsl"
          emptyWorld).1 GL_LINK_STATUS = some GL_FALSE) ∧
    (loadShaders (sampleEnv (some [[65]]) true true false) "v.glsl" "f.glsl" emptyWorld).1 = 0 ∧
    (loadShaders (sampleEnv (some [[65]]) true true false) "v.glsl" "f.glsl" emptyWorld).2.gl
      = emptyWorld.gl :=
  ⟨⟨fun st => nextName_fresh st, by decide, by decide⟩,
    (loadShaders_link_failure_cleanup (sampleEnv (some [[65]]) true true false) "v.glsl"
      "f.glsl" emptyWorld (fun st => nextName_fresh st) (by decide) (by decide)).1,
    (loadShaders_link_failure_cleanup (sampleEnv (some [[65]]) true true false) "v.glsl"
      "f.glsl" emptyWorld (fun st => nextName_fresh st) (by decide) (by decide)).2.1⟩

/-- C2, as stated, fails: when both files cannot be opened and the driver
reports the link of the empty program as successful, `loadShaders` returns the
nonzero program name although no shader is attached to that program. -/
theorem unstaged_program_returned :
    (loadShaders (sampleEnv none true true true) "v.glsl" "f.glsl" emptyWorld).1 = 1 ∧
    (findProgram (loadShaders (sampleEnv none true true true) "v.glsl" "f.glsl"
      emptyWorld).2.gl 1).map (fun o => o.attached) = some [] ∧
    vertexResult (sampleEnv none true true true) "v.glsl" emptyWorld = 0 ∧
    fragmentResult (sampleEnv none true true true) "v.glsl" "f.glsl" emptyWorld = 0 := by
  decide

/-- C2, amended: with fresh names from `glCreateShader` and `glCreateProgram`,
a nonzero handle returned by `loadShaders` is the name of the created program,
its link status is `GL_TRUE`, and the shaders attached to it are exactly the
nonzero results of the vertex and the fragment compilation, in that order. -/
theorem loadShaders_nonzero (env : Env) (vertexShaderPath fragmentShaderPath : String)
    (w : World) (hfs : ∀ st, Fresh st (env.genShader st))
    (hfp : Fresh w.gl (env.genProgram w.gl))
    (hret : (loadShaders env vertexShaderPath fragmentShaderPath w).1 ≠ 0) :
    (loadShaders env vertexShaderPath fragmentShaderPath w).1 = env.genProgram w.gl ∧
    glGetProgramiv (loadShaders env vertexShaderPath fragmentShaderPath w).2.gl
      (loadShaders env vertexShaderPath fragmentShaderPath w).1 GL_LINK_STATUS = some GL_TRUE ∧
    ∃ o, findProgram (loadShaders env vertexShaderPath fragmentShaderPath w).2.gl
        (loadShaders env vertexShaderPath fragmentShaderPath w).1 = some o ∧
      o.attached = [vertexResult env vertexShaderPath w,
        fragmentResult env vertexShaderPath fragmentShaderPath w].filter (fun n => n ≠ 0) := by
  obtain ⟨_, _, hP, _⟩ := fresh_parts _ _ hfp
  obtain ⟨N, status, log, hgl, hN, hnames⟩ :=
    loadShadersLink_shape env vertexShaderPath fragmentShaderPath w hfs hfp
  have h1 : (loadShadersLink env vertexShaderPath fragmentShaderPath w).1
      = env.genProgram w.gl := rfl
  obtain ⟨hstat, hfind⟩ := linked_status w.gl.shaders w.gl.programs (env.genProgram w.gl) N
    status log hP
  rw [loadShaders_eq] at hret ⊢
  rw [hgl, h1, hstat] at hret ⊢
  cases status with
  | false => simp [GL_FALSE] at hret
  | true =>
    have hne : ¬ ((some (if true = true then GL_TRUE else GL_FALSE) : Option GLint).getD
        env.uninit = GL_FALSE) := by
      simp [GL_TRUE, GL_FALSE]
    rw [if_neg hne]
    simp only [hgl, h1]
    exact ⟨trivial, hstat, _, hfind, hnames⟩

theorem loadShaders_nonzero_witness :
    ((∀ st, Fresh st ((sampleEnv (some [[65]]) true true true).genShader st)) ∧
      Fresh emptyWorld.gl ((sampleEnv (some [[65]]) true true true).genProgram emptyWorld.gl) ∧
      (loadShaders (sampleEnv (some [[65]]) true true true) "v.glsl" "f.glsl" emptyWorld).1
        ≠ 0) ∧
    glGetProgramiv
      (loadShaders (sampleEnv (some [[65]]) true true true) "v.glsl" "f.glsl" emptyWorld).2.gl
      (loadShaders (sampleEnv (some [[65]]) true true true) "v.glsl" "f.glsl" emptyWorld).1
      GL_LINK_STATUS = some GL_TRUE :=
  ⟨⟨fun st => nextName_fresh st, by decide, by decide⟩,
    (loadShaders_nonzero (sampleEnv (some [[65]]) true true true) "v.glsl" "f.glsl" emptyWorld
      (fun st => nextName_fresh st) (by decide) (by decide)).2.1⟩

end ShaderLoader
